import Mathlib

/-!
A shallow embedding of `src/main.cpp` (the texture-mapping tutorial program).

The program's observable behaviour is modelled as a trace of API events:
`mainRun` mirrors `main` step by step, branching on an environment that
records whether window creation succeeds, whether the GL loader succeeds,
what the image decoder returns, and the per-frame inputs delivered to the
render loop.  The fixed vertex and index data are embedded over `ℚ`
(every float literal in the source is exactly representable).
-/

namespace Textures

/-- Image metadata produced by a successful `stbi_load` call:
width, height and channel count. -/
structure ImageData where
  width : Int
  height : Int
  nrChannels : Int
deriving DecidableEq

/-- The `glTexParameteri` parameter names used by the program. -/
inductive TexParamName
  | wrapS
  | wrapT
  | minFilter
  | magFilter
deriving DecidableEq

/-- The `glTexParameteri` parameter values used by the program. -/
inductive TexParamValue
  | glRepeat
  | glLinear
deriving DecidableEq

/-- Buffer binding targets used by the program. -/
inductive BufTarget
  | arrayBuffer
  | elementArrayBuffer
deriving DecidableEq

/-- The two GPU buffer objects generated by `main`. -/
inductive BufObj
  | vbo
  | ebo
deriving DecidableEq

/-- One observable API call issued by `main` (or a diagnostic print). -/
inductive Event
  | glfwInit
  | windowHint
  | createWindow (w h : Nat)
  | printErr (msg : String)
  | glfwTerminate
  | makeContextCurrent
  | setFramebufferSizeCallback
  | gladLoad
  | shaderCtor (vsPath fsPath : String)
  | genVertexArrays
  | genBuffer (b : BufObj)
  | bindVertexArray
  | bindBuffer (t : BufTarget)
  | bufferData (t : BufTarget) (bytes : Nat)
  | vertexAttribPointer (idx size stride off : Nat)
  | enableVertexAttribArray (idx : Nat)
  | genTextures
  | bindTexture
  | texParameteri (n : TexParamName) (v : TexParamValue)
  | stbiLoad (path : String)
  | texImage2D (w h : Int)
  | generateMipmap
  | stbiImageFree (isNull : Bool)
  | checkInput
  | clearColor
  | glClear
  | useProgram
  | getUniformLocation
  | uniform1f
  | drawElements (count : Nat)
  | swapBuffers
  | pollEvents
  | deleteVertexArrays
  | deleteBuffer (b : BufObj)
  | deleteTextures
deriving DecidableEq

/-- `sizeof(float)` on the target platform. -/
def floatSize : Nat := 4

/-- `sizeof(unsigned int)` on the target platform. -/
def uintSize : Nat := 4

/-- The `vertices` array of `main`: 4 vertices, each
position (3 floats), color (3 floats), texture coordinate (2 floats). -/
def vertices : List ℚ :=
  [ 1/2,  1/2, 0,   1, 0, 0,   1, 1,
    1/2, -1/2, 0,   0, 1, 0,   1, 0,
   -1/2, -1/2, 0,   0, 0, 1,   0, 0,
   -1/2,  1/2, 0,   1, 1, 0,   0, 1]

/-- The `indices` array of `main`. -/
def indices : List Nat := [0, 1, 3, 1, 2, 3]

/-- The (x, y) position of vertex `i` as stored in `vertices`
(the z component is 0 for all four vertices). -/
def vpos (i : Nat) : ℚ × ℚ :=
  (vertices.getD (8 * i) 0, vertices.getD (8 * i + 1) 0)

/-- The texture coordinate of vertex `i` as stored in `vertices`. -/
def texCoord (i : Nat) : ℚ × ℚ :=
  (vertices.getD (8 * i + 6) 0, vertices.getD (8 * i + 7) 0)

/-- Vertex `j` of triangle `k` (triangles are consecutive index triples). -/
def triVertex (k j : Nat) : ℚ × ℚ :=
  vpos (indices.getD (3 * k + j) 0)

/-- `p` lies in the closed triangle with corners `a`, `b`, `c`
(a convex combination of the corners). -/
def inTriangle (a b c p : ℚ × ℚ) : Prop :=
  ∃ u v w : ℚ, 0 ≤ u ∧ 0 ≤ v ∧ 0 ≤ w ∧ u + v + w = 1 ∧
    p.1 = u * a.1 + v * b.1 + w * c.1 ∧ p.2 = u * a.2 + v * b.2 + w * c.2

/-- `p` lies in the open interior of the triangle with corners `a`, `b`, `c`. -/
def inTriangleInterior (a b c p : ℚ × ℚ) : Prop :=
  ∃ u v w : ℚ, 0 < u ∧ 0 < v ∧ 0 < w ∧ u + v + w = 1 ∧
    p.1 = u * a.1 + v * b.1 + w * c.1 ∧ p.2 = u * a.2 + v * b.2 + w * c.2

/-- `p` lies on the closed segment from `a` to `b`. -/
def onSegment (a b p : ℚ × ℚ) : Prop :=
  ∃ t : ℚ, 0 ≤ t ∧ t ≤ 1 ∧
    p.1 = t * a.1 + (1 - t) * b.1 ∧ p.2 = t * a.2 + (1 - t) * b.2

/-- `p` lies in the quad `[-0.5, 0.5] × [-0.5, 0.5]` spanned by the four
vertex positions. -/
def inQuad (p : ℚ × ℚ) : Prop :=
  -(1/2) ≤ p.1 ∧ p.1 ≤ 1/2 ∧ -(1/2) ≤ p.2 ∧ p.2 ≤ 1/2

/-- The geometry-setup event sequence of `main` (VAO/VBO/EBO creation,
uploads, attribute pointers), lines 529-550 of `main.cpp`. -/
def geometrySetup : List Event :=
  [.genVertexArrays, .genBuffer .vbo, .genBuffer .ebo,
   .bindVertexArray,
   .bindBuffer .arrayBuffer, .bufferData .arrayBuffer (vertices.length * floatSize),
   .bindBuffer .elementArrayBuffer, .bufferData .elementArrayBuffer (indices.length * uintSize),
   .vertexAttribPointer 0 3 (8 * floatSize) 0, .enableVertexAttribArray 0,
   .vertexAttribPointer 1 3 (8 * floatSize) (3 * floatSize), .enableVertexAttribArray 1,
   .vertexAttribPointer 2 2 (8 * floatSize) (6 * floatSize), .enableVertexAttribArray 2]

/-- The texture-setup event sequence of `main` (lines 555-577), as a
function of what `stbi_load` returned (`none` models a null buffer).
`glTexImage2D` and `glGenerateMipmap` run only when the decode succeeded;
`stbi_image_free` runs unconditionally, receiving a null pointer on the
failure path. -/
def textureSetup (decoded : Option ImageData) : List Event :=
  [.genTextures, .bindTexture,
   .texParameteri .wrapS .glRepeat, .texParameteri .wrapT .glRepeat,
   .texParameteri .minFilter .glLinear, .texParameteri .magFilter .glLinear,
   .stbiLoad "container.jpg"] ++
  (match decoded with
   | some img => [.texImage2D img.width img.height, .generateMipmap]
   | none => [.printErr "Failed to load texture"]) ++
  [.stbiImageFree decoded.isNone]

/-- External input delivered to one loop iteration: whether the escape key
is down during `processInput`, and whether the window system requests a
close during `glfwPollEvents`. -/
structure FrameInput where
  escPressed : Bool
  closeRequested : Bool
deriving DecidableEq

/-- `processInput`: a press of the escape key sets the window's
should-close flag; otherwise the flag is unchanged. -/
def processInput (escPressed shouldClose : Bool) : Bool :=
  if escPressed then true else shouldClose

/-- `glfwPollEvents` as it affects the should-close flag: an external close
request sets it. -/
def pollEventsStep (closeRequested shouldClose : Bool) : Bool :=
  if closeRequested then true else shouldClose

/-- The should-close flag after one full loop iteration with input `i`. -/
def stepState (i : FrameInput) (shouldClose : Bool) : Bool :=
  pollEventsStep i.closeRequested (processInput i.escPressed shouldClose)

/-- The event sequence of one iteration of the render loop
(lines 582-609 of `main.cpp`), in source order. -/
def frameEvents : List Event :=
  [.checkInput, .clearColor, .glClear, .bindTexture, .useProgram,
   .getUniformLocation, .uniform1f, .bindVertexArray, .drawElements 6,
   .swapBuffers, .pollEvents]

/-- The render loop: `while (!glfwWindowShouldClose(window)) { ... }`.
The flag is tested at the start of each iteration; the result is the
emitted events together with `some flag` when the loop exited (the flag
was observed set), or `none` when the supplied inputs ran out with the
loop still running. -/
def renderLoop : List FrameInput → Bool → List Event × Option Bool
  | _, true => ([], some true)
  | [], false => ([], none)
  | i :: rest, false =>
    (frameEvents ++ (renderLoop rest (stepState i false)).1,
     (renderLoop rest (stepState i false)).2)

/-- How many iterations the render loop runs before observing the flag
(or before the supplied inputs run out). -/
def itersRun : List FrameInput → Bool → Nat
  | _, true => 0
  | [], false => 0
  | i :: rest, false => itersRun rest (stepState i false) + 1

/-- Whether the should-close flag is observed set at the start of some
iteration, within the supplied inputs. -/
def flagObserved : List FrameInput → Bool → Bool
  | _, true => true
  | [], false => false
  | i :: rest, false => flagObserved rest (stepState i false)

/-- `SCR_WIDTH` from `main.cpp`. -/
def SCR_WIDTH : Nat := 800

/-- `SCR_HEIGHT` from `main.cpp`. -/
def SCR_HEIGHT : Nat := 600

/-- The environment `main` runs in: whether `glfwCreateWindow` returns a
window, whether `gladLoadGLLoader` succeeds, what `stbi_load` returns,
and the inputs delivered to the render loop. -/
structure Env where
  windowOk : Bool
  gladOk : Bool
  decoded : Option ImageData
  frames : List FrameInput

/-- Events up to and including the `glfwCreateWindow` call. -/
def preWindowEvents : List Event :=
  [.glfwInit, .windowHint, .windowHint, .windowHint,
   .createWindow SCR_WIDTH SCR_HEIGHT]

/-- The full trace when window creation fails: diagnostic, `glfwTerminate`,
return -1. -/
def windowFailTrace : List Event :=
  preWindowEvents ++ [.printErr "Failed to create GLFW window", .glfwTerminate]

/-- Events up to and including the `gladLoadGLLoader` call. -/
def preGladEvents : List Event :=
  preWindowEvents ++ [.makeContextCurrent, .setFramebufferSizeCallback, .gladLoad]

/-- The full trace when GL function-pointer resolution fails: diagnostic,
return -1 (no `glfwTerminate`). -/
def gladFailTrace : List Event :=
  preGladEvents ++ [.printErr "Failed to initialize GLAD"]

/-- All setup events before the render loop, on the success path. -/
def setupTrace (decoded : Option ImageData) : List Event :=
  preGladEvents ++ [.shaderCtor "4.1.texturevs.txt" "4.1.texturefs.txt"]
    ++ geometrySetup ++ textureSetup decoded

/-- The teardown after the loop: delete VAO, VBO, EBO, then `glfwTerminate`.
The texture object is never deleted. -/
def shutdownEvents : List Event :=
  [.deleteVertexArrays, .deleteBuffer .vbo, .deleteBuffer .ebo, .glfwTerminate]

/-- Combine the setup trace with the render loop's outcome: if the loop
exited, the teardown runs and `main` returns 0; otherwise the program is
still inside the loop and has no exit status yet. -/
def finishRun (setup : List Event) (r : List Event × Option Bool) :
    List Event × Option Int :=
  match r.2 with
  | some _ => (setup ++ r.1 ++ shutdownEvents, some 0)
  | none => (setup ++ r.1, none)

/-- The whole of `main`, as a trace of events plus the exit status
(`none` when the loop is still running within the supplied inputs). -/
def mainRun (env : Env) : List Event × Option Int :=
  if env.windowOk then
    if env.gladOk then
      finishRun (setupTrace env.decoded) (renderLoop env.frames false)
    else (gladFailTrace, some (-1))
  else (windowFailTrace, some (-1))

/-- The GPU viewport rectangle set by `glViewport`. -/
structure Viewport where
  x : Int
  y : Int
  width : Int
  height : Int
deriving DecidableEq

/-- `framebuffer_size_callback`: resets the viewport to
`(0, 0, width, height)` for the reported framebuffer size. -/
def framebuffer_size_callback (width height : Int) : Viewport :=
  { x := 0, y := 0, width := width, height := height }

/-- Recognises `glTexImage2D` events. -/
def isTexImage2D : Event → Bool
  | .texImage2D _ _ => true
  | _ => false

/-- Recognises `stbi_image_free` events. -/
def isStbiImageFree : Event → Bool
  | .stbiImageFree _ => true
  | _ => false

/-- Recognises `glDrawElements` events. -/
def isDrawElements : Event → Bool
  | .drawElements _ => true
  | _ => false

/-- Recognises `glVertexAttribPointer` events. -/
def isVertexAttribPointer : Event → Bool
  | .vertexAttribPointer _ _ _ _ => true
  | _ => false

/-- Events belonging to the setup steps after the GL-loader check, to the
render loop, or to teardown (everything from the shader build onward). -/
def isPostGladEvent : Event → Bool
  | .glfwInit => false
  | .windowHint => false
  | .createWindow _ _ => false
  | .printErr _ => false
  | .glfwTerminate => false
  | .makeContextCurrent => false
  | .setFramebufferSizeCallback => false
  | .gladLoad => false
  | _ => true

/-- Events belonging to any step after the window-creation check
(context binding, loader, and everything `isPostGladEvent` covers). -/
def isPostWindowEvent : Event → Bool
  | .glfwInit => false
  | .windowHint => false
  | .createWindow _ _ => false
  | .printErr _ => false
  | .glfwTerminate => false
  | e => isPostGladEvent e

/-! ### Helper lemmas about the embedded data and traces -/

lemma vpos_zero : vpos 0 = (1/2, 1/2) := rfl

lemma vpos_one : vpos 1 = (1/2, -(1/2)) := by norm_num [vpos, vertices]

lemma vpos_two : vpos 2 = (-(1/2), -(1/2)) := by norm_num [vpos, vertices]

lemma vpos_three : vpos 3 = (-(1/2), 1/2) := by norm_num [vpos, vertices]

lemma texCoord_zero : texCoord 0 = (1, 1) := by norm_num [texCoord, vertices]

lemma texCoord_one : texCoord 1 = (1, 0) := by norm_num [texCoord, vertices]

lemma texCoord_two : texCoord 2 = (0, 0) := by norm_num [texCoord, vertices]

lemma texCoord_three : texCoord 3 = (0, 1) := by norm_num [texCoord, vertices]

lemma renderLoop_flag_true (ins : List FrameInput) :
    renderLoop ins true = ([], some true) := by
  cases ins <;> rfl

lemma renderLoop_cons_false (i : FrameInput) (rest : List FrameInput) :
    renderLoop (i :: rest) false =
      (frameEvents ++ (renderLoop rest (stepState i false)).1,
       (renderLoop rest (stepState i false)).2) := rfl

lemma itersRun_flag_true (ins : List FrameInput) : itersRun ins true = 0 := by
  cases ins <;> rfl

lemma flagObserved_flag_true (ins : List FrameInput) :
    flagObserved ins true = true := by
  cases ins <;> rfl

lemma renderLoop_join (ins : List FrameInput) (s : Bool) :
    (renderLoop ins s).1 = (List.replicate (itersRun ins s) frameEvents).flatten := by
  induction ins generalizing s with
  | nil => cases s <;> rfl
  | cons i rest ih =>
    cases s
    · rw [renderLoop_cons_false]
      show frameEvents ++ (renderLoop rest (stepState i false)).1 = _
      rw [ih, show itersRun (i :: rest) false = itersRun rest (stepState i false) + 1 from rfl,
        List.replicate_succ, List.flatten_cons]
    · rw [renderLoop_flag_true, itersRun_flag_true]
      rfl

lemma renderLoop_isSome (ins : List FrameInput) (s : Bool) :
    (renderLoop ins s).2.isSome = flagObserved ins s := by
  induction ins generalizing s with
  | nil => cases s <;> rfl
  | cons i rest ih =>
    cases s
    · rw [renderLoop_cons_false]
      exact ih (stepState i false)
    · rw [renderLoop_flag_true, flagObserved_flag_true]
      rfl

lemma mem_frameEvents_of_mem_renderLoop (ins : List FrameInput) (s : Bool) (e : Event)
    (h : e ∈ (renderLoop ins s).1) : e ∈ frameEvents := by
  induction ins generalizing s with
  | nil =>
    cases s
    · simp [renderLoop] at h
    · rw [renderLoop_flag_true] at h
      simp at h
  | cons i rest ih =>
    cases s
    · rw [renderLoop_cons_false] at h
      rcases List.mem_append.mp h with h1 | h2
      · exact h1
      · exact ih (stepState i false) h2
    · rw [renderLoop_flag_true] at h
      simp at h

lemma count_renderLoop_zero (ins : List FrameInput) (s : Bool) (e : Event)
    (he : e ∉ frameEvents) : (renderLoop ins s).1.count e = 0 :=
  List.count_eq_zero.mpr fun h => he (mem_frameEvents_of_mem_renderLoop ins s e h)

lemma countP_renderLoop_zero (ins : List FrameInput) (s : Bool) (p : Event → Bool)
    (hp : ∀ e ∈ frameEvents, ¬p e) : (renderLoop ins s).1.countP p = 0 :=
  List.countP_eq_zero.mpr fun e h => hp e (mem_frameEvents_of_mem_renderLoop ins s e h)

lemma mainRun_windowFail (env : Env) (h : env.windowOk = false) :
    mainRun env = (windowFailTrace, some (-1)) := by
  simp [mainRun, h]

lemma mainRun_gladFail (env : Env) (h1 : env.windowOk = true) (h2 : env.gladOk = false) :
    mainRun env = (gladFailTrace, some (-1)) := by
  simp [mainRun, h1, h2]

lemma mainRun_ok (env : Env) (h1 : env.windowOk = true) (h2 : env.gladOk = true) :
    mainRun env = finishRun (setupTrace env.decoded) (renderLoop env.frames false) := by
  simp [mainRun, h1, h2]

lemma finishRun_some (setup : List Event) (r : List Event × Option Bool) (b : Bool)
    (h : r.2 = some b) :
    finishRun setup r = (setup ++ r.1 ++ shutdownEvents, some 0) := by
  simp [finishRun, h]

lemma finishRun_none (setup : List Event) (r : List Event × Option Bool)
    (h : r.2 = none) : finishRun setup r = (setup ++ r.1, none) := by
  simp [finishRun, h]

/-! ### Half-plane characterizations of the two index-buffer triangles -/

lemma tri1_mem_iff (p : ℚ × ℚ) :
    inTriangle (vpos 0) (vpos 1) (vpos 3) p ↔
      0 ≤ p.1 + p.2 ∧ p.1 ≤ 1/2 ∧ p.2 ≤ 1/2 := by
  rw [vpos_zero, vpos_one, vpos_three]
  constructor
  · rintro ⟨u, v, w, hu, hv, hw, hsum, hx, hy⟩
    simp only [Prod.fst, Prod.snd] at hx hy
    refine ⟨by linarith, by linarith, by linarith⟩
  · rintro ⟨h1, h2, h3⟩
    exact ⟨p.1 + p.2, 1/2 - p.2, 1/2 - p.1, h1, by linarith, by linarith,
      by ring, by simp only [Prod.fst, Prod.snd]; ring,
      by simp only [Prod.fst, Prod.snd]; ring⟩

lemma tri2_mem_iff (p : ℚ × ℚ) :
    inTriangle (vpos 1) (vpos 2) (vpos 3) p ↔
      p.1 + p.2 ≤ 0 ∧ -(1/2) ≤ p.1 ∧ -(1/2) ≤ p.2 := by
  rw [vpos_one, vpos_two, vpos_three]
  constructor
  · rintro ⟨u, v, w, hu, hv, hw, hsum, hx, hy⟩
    simp only [Prod.fst, Prod.snd] at hx hy
    refine ⟨by linarith, by linarith, by linarith⟩
  · rintro ⟨h1, h2, h3⟩
    exact ⟨p.1 + 1/2, -(p.1 + p.2), p.2 + 1/2, by linarith, by linarith, by linarith,
      by ring, by simp only [Prod.fst, Prod.snd]; ring,
      by simp only [Prod.fst, Prod.snd]; ring⟩

lemma tri1_interior_iff (p : ℚ × ℚ) :
    inTriangleInterior (vpos 0) (vpos 1) (vpos 3) p ↔
      0 < p.1 + p.2 ∧ p.1 < 1/2 ∧ p.2 < 1/2 := by
  rw [vpos_zero, vpos_one, vpos_three]
  constructor
  · rintro ⟨u, v, w, hu, hv, hw, hsum, hx, hy⟩
    simp only [Prod.fst, Prod.snd] at hx hy
    refine ⟨by linarith, by linarith, by linarith⟩
  · rintro ⟨h1, h2, h3⟩
    exact ⟨p.1 + p.2, 1/2 - p.2, 1/2 - p.1, h1, by linarith, by linarith,
      by ring, by simp only [Prod.fst, Prod.snd]; ring,
      by simp only [Prod.fst, Prod.snd]; ring⟩

lemma tri2_interior_iff (p : ℚ × ℚ) :
    inTriangleInterior (vpos 1) (vpos 2) (vpos 3) p ↔
      p.1 + p.2 < 0 ∧ -(1/2) < p.1 ∧ -(1/2) < p.2 := by
  rw [vpos_one, vpos_two, vpos_three]
  constructor
  · rintro ⟨u, v, w, hu, hv, hw, hsum, hx, hy⟩
    simp only [Prod.fst, Prod.snd] at hx hy
    refine ⟨by linarith, by linarith, by linarith⟩
  · rintro ⟨h1, h2, h3⟩
    exact ⟨p.1 + 1/2, -(p.1 + p.2), p.2 + 1/2, by linarith, by linarith, by linarith,
      by ring, by simp only [Prod.fst, Prod.snd]; ring,
      by simp only [Prod.fst, Prod.snd]; ring⟩

lemma seg13_iff (p : ℚ × ℚ) :
    onSegment (vpos 1) (vpos 3) p ↔
      p.1 + p.2 = 0 ∧ -(1/2) ≤ p.1 ∧ p.1 ≤ 1/2 := by
  rw [vpos_one, vpos_three]
  constructor
  · rintro ⟨t, ht0, ht1, hx, hy⟩
    simp only [Prod.fst, Prod.snd] at hx hy
    refine ⟨by linarith, by linarith, by linarith⟩
  · rintro ⟨h1, h2, h3⟩
    exact ⟨p.1 + 1/2, by linarith, by linarith,
      by simp only [Prod.fst, Prod.snd]; ring,
      by simp only [Prod.fst, Prod.snd]; linarith⟩

/-! ### Counting and membership facts about the setup traces -/

lemma countP_stbiFree_textureSetup (d : Option ImageData) :
    (textureSetup d).countP isStbiImageFree = 1 := by
  cases d <;> simp [textureSetup, isStbiImageFree, List.countP_cons, List.countP_append]

lemma stbiFree_mem_textureSetup (d : Option ImageData) :
    Event.stbiImageFree d.isNone ∈ textureSetup d := by
  cases d <;> simp [textureSetup]

lemma countP_stbiFree_setupTrace (d : Option ImageData) :
    (setupTrace d).countP isStbiImageFree = 1 := by
  cases d <;>
    simp [setupTrace, preGladEvents, preWindowEvents, geometrySetup, textureSetup,
      isStbiImageFree, List.countP_cons, List.countP_append]

lemma wrapS_mem_textureSetup (d : Option ImageData) :
    Event.texParameteri .wrapS .glRepeat ∈ textureSetup d := by
  cases d <;> simp [textureSetup]

lemma wrapT_mem_textureSetup (d : Option ImageData) :
    Event.texParameteri .wrapT .glRepeat ∈ textureSetup d := by
  cases d <;> simp [textureSetup]

lemma deleteTextures_not_mem_setupTrace (d : Option ImageData) :
    Event.deleteTextures ∉ setupTrace d := by
  cases d <;>
    simp [setupTrace, preGladEvents, preWindowEvents, geometrySetup, textureSetup]

lemma deleteVertexArrays_not_mem_setupTrace (d : Option ImageData) :
    Event.deleteVertexArrays ∉ setupTrace d := by
  cases d <;>
    simp [setupTrace, preGladEvents, preWindowEvents, geometrySetup, textureSetup]

lemma deleteBuffer_not_mem_setupTrace (d : Option ImageData) (b : BufObj) :
    Event.deleteBuffer b ∉ setupTrace d := by
  cases d <;>
    simp [setupTrace, preGladEvents, preWindowEvents, geometrySetup, textureSetup]

lemma countP_texImage2D_setupTrace_none :
    (setupTrace none).countP isTexImage2D = 0 := by
  simp [setupTrace, preGladEvents, preWindowEvents, geometrySetup, textureSetup,
    isTexImage2D, List.countP_cons, List.countP_append]

lemma generateMipmap_not_mem_setupTrace_none :
    Event.generateMipmap ∉ setupTrace none := by
  simp [setupTrace, preGladEvents, preWindowEvents, geometrySetup, textureSetup]

lemma decodeFail_diag_mem_setupTrace_none :
    Event.printErr "Failed to load texture" ∈ setupTrace none := by
  simp [setupTrace, textureSetup]

lemma createWindow_mem_mainRun (env : Env) :
    Event.createWindow SCR_WIDTH SCR_HEIGHT ∈ (mainRun env).1 := by
  rcases hw : env.windowOk with _ | _
  · rw [mainRun_windowFail env hw]
    simp [windowFailTrace, preWindowEvents]
  · rcases hg : env.gladOk with _ | _
    · rw [mainRun_gladFail env hw hg]
      simp [gladFailTrace, preGladEvents, preWindowEvents]
    · rw [mainRun_ok env hw hg]
      rcases hr : (renderLoop env.frames false).2 with _ | b
      · rw [finishRun_none _ _ hr]
        simp [setupTrace, preGladEvents, preWindowEvents]
      · rw [finishRun_some _ _ b hr]
        simp [setupTrace, preGladEvents, preWindowEvents]

/-! ### The claims -/

/-- C4: For the fixed 4-vertex quad, the vertex buffer byte layout matches the
declared attribute pointers exactly: each vertex occupies a stride of 32 bytes
(8 floats), attribute 0 (position, 3 floats) is at byte offset 0, attribute 1
(color, 3 floats) at byte offset 12, attribute 2 (texture coordinate, 2 floats)
at byte offset 24; the three attributes tile the 32-byte stride with no gap or
overlap, and the uploaded buffer holds exactly 4 such vertices
(32 floats = 4 × 32 bytes). -/
theorem vertex_layout_matches_attribute_pointers :
    Event.vertexAttribPointer 0 3 (8 * floatSize) 0 ∈ geometrySetup ∧
    Event.vertexAttribPointer 1 3 (8 * floatSize) (3 * floatSize) ∈ geometrySetup ∧
    Event.vertexAttribPointer 2 2 (8 * floatSize) (6 * floatSize) ∈ geometrySetup ∧
    geometrySetup.countP isVertexAttribPointer = 3 ∧
    8 * floatSize = 32 ∧ 3 * floatSize = 12 ∧ 6 * floatSize = 24 ∧
    0 + 3 * floatSize = 12 ∧ 12 + 3 * floatSize = 24 ∧ 24 + 2 * floatSize = 32 ∧
    vertices.length = 4 * 8 ∧
    Event.bufferData .arrayBuffer (4 * (8 * floatSize)) ∈ geometrySetup := by
  decide

/-- C6: Every iteration of the frame loop performs, in this strict order:
input check (a press of the escape key sets the exit flag), clear, bind
texture, bind shader program, bind vertex array, exactly one indexed draw
call, buffer swap, event poll; the loop's whole event trace is that fixed
block repeated once per iteration, and the loop terminates exactly when the
should-close flag is observed set at the start of an iteration (observing it
set produces no further events). -/
theorem frame_loop_order_and_termination :
    frameEvents =
      [.checkInput, .clearColor, .glClear, .bindTexture, .useProgram,
       .getUniformLocation, .uniform1f, .bindVertexArray, .drawElements 6,
       .swapBuffers, .pollEvents] ∧
    frameEvents.countP isDrawElements = 1 ∧
    (∀ b : Bool, processInput true b = true) ∧
    (∀ b : Bool, processInput false b = b) ∧
    (∀ (ins : List FrameInput) (s : Bool),
      (renderLoop ins s).1 = (List.replicate (itersRun ins s) frameEvents).flatten) ∧
    (∀ (ins : List FrameInput) (s : Bool),
      (renderLoop ins s).2.isSome = flagObserved ins s) ∧
    (∀ ins : List FrameInput, renderLoop ins true = ([], some true)) :=
  ⟨rfl, by decide, fun _ => rfl, fun _ => rfl,
    renderLoop_join, renderLoop_isSome, renderLoop_flag_true⟩

/-- C7: The window is created with fixed initial size 800 × 600, and for every
resize event with reported dimensions (w, h) the resize callback reconfigures
the GPU viewport to exactly (0, 0, w, h). -/
theorem window_size_and_viewport_resize :
    SCR_WIDTH = 800 ∧ SCR_HEIGHT = 600 ∧
    (∀ env : Env, Event.createWindow 800 600 ∈ (mainRun env).1) ∧
    (∀ w h : Int, framebuffer_size_callback w h = ⟨0, 0, w, h⟩) := by
  refine ⟨rfl, rfl, fun env => ?_, fun w h => rfl⟩
  exact createWindow_mem_mainRun env

/-- C9: Every texture coordinate in the fixed vertex data lies within [0, 1]
on both axes — the four pairs are exactly (1,1), (1,0), (0,0), (0,1) — while
the wrap mode is configured to GL_REPEAT on both the S and T axes. -/
theorem texcoords_within_unit_range :
    texCoord 0 = (1, 1) ∧ texCoord 1 = (1, 0) ∧
    texCoord 2 = (0, 0) ∧ texCoord 3 = (0, 1) ∧
    (∀ i : Fin 4, 0 ≤ (texCoord i.val).1 ∧ (texCoord i.val).1 ≤ 1 ∧
      0 ≤ (texCoord i.val).2 ∧ (texCoord i.val).2 ≤ 1) ∧
    (∀ d : Option ImageData,
      Event.texParameteri .wrapS .glRepeat ∈ textureSetup d ∧
      Event.texParameteri .wrapT .glRepeat ∈ textureSetup d) := by
  refine ⟨texCoord_zero, texCoord_one, texCoord_two, texCoord_three, fun i => ?_,
    fun d => ⟨wrapS_mem_textureSetup d, wrapT_mem_textureSetup d⟩⟩
  fin_cases i <;> norm_num [texCoord, vertices]

/-- C2 counterexample: the claim asserts that on decode failure the GPU upload
and mip-generation are still performed; in the code both sit inside the
`if (data)` branch, so with a null decode result the texture-setup trace
contains no `glTexImage2D` and no `glGenerateMipmap` (while the diagnostic is
printed). -/
theorem decode_failure_upload_not_performed :
    (textureSetup none).countP isTexImage2D = 0 ∧
    Event.generateMipmap ∉ textureSetup none ∧
    Event.printErr "Failed to load texture" ∈ textureSetup none := by
  decide

/-- C2 (amended): when the image decode returns a null buffer, the program
prints a diagnostic and does not abort, and it skips the texture upload step:
neither `glTexImage2D` nor the mip-generation request is performed anywhere in
the run, leaving the texture object allocated with no image data. -/
theorem decode_failure_skips_upload : ∀ frames : List FrameInput,
    (mainRun ⟨true, true, none, frames⟩).1.countP isTexImage2D = 0 ∧
    Event.generateMipmap ∉ (mainRun ⟨true, true, none, frames⟩).1 ∧
    Event.printErr "Failed to load texture" ∈ (mainRun ⟨true, true, none, frames⟩).1 ∧
    ((mainRun ⟨true, true, none, frames⟩).2 = some 0 ∨
      (mainRun ⟨true, true, none, frames⟩).2 = none) := by
  intro frames
  rw [mainRun_ok _ rfl rfl]
  have hloopT : (renderLoop frames false).1.countP isTexImage2D = 0 :=
    countP_renderLoop_zero _ _ _ (by decide)
  have hloopM : Event.generateMipmap ∉ (renderLoop frames false).1 := fun h =>
    (by decide : Event.generateMipmap ∉ frameEvents)
      (mem_frameEvents_of_mem_renderLoop _ _ _ h)
  rcases hr : (renderLoop frames false).2 with _ | b
  · rw [finishRun_none _ _ hr]
    refine ⟨?_, ?_, ?_, Or.inr rfl⟩
    · rw [List.countP_append, countP_texImage2D_setupTrace_none, hloopT]
    · intro h
      rcases List.mem_append.mp h with h1 | h2
      · exact generateMipmap_not_mem_setupTrace_none h1
      · exact hloopM h2
    · exact List.mem_append.mpr (Or.inl decodeFail_diag_mem_setupTrace_none)
  · rw [finishRun_some _ _ b hr]
    refine ⟨?_, ?_, ?_, Or.inl rfl⟩
    · rw [List.countP_append, List.countP_append, countP_texImage2D_setupTrace_none,
        hloopT]
      decide
    · intro h
      rcases List.mem_append.mp h with h12 | h3
      · rcases List.mem_append.mp h12 with h1 | h2
        · exact generateMipmap_not_mem_setupTrace_none h1
        · exact hloopM h2
      · exact (by decide : Event.generateMipmap ∉ shutdownEvents) h3
    · exact List.mem_append.mpr
        (Or.inl (List.mem_append.mpr (Or.inl decodeFail_diag_mem_setupTrace_none)))

lemma stbiFree_mem_setupTrace (d : Option ImageData) :
    Event.stbiImageFree d.isNone ∈ setupTrace d := by
  unfold setupTrace
  exact List.mem_append.mpr (Or.inr (stbiFree_mem_textureSetup d))

/-- C3: On every control path after the decode call — decode success and
decode failure alike — the decoded image buffer is released exactly once via
`stbi_image_free`; on the failure path the free is called with the null
pointer returned by the failed decode.  This holds of the texture-setup block
and of the whole run whenever setup is reached. -/
theorem decoded_buffer_freed_exactly_once :
    (∀ d : Option ImageData,
      (textureSetup d).countP isStbiImageFree = 1 ∧
      Event.stbiImageFree d.isNone ∈ textureSetup d) ∧
    Event.stbiImageFree true ∈ textureSetup none ∧
    (∀ env : Env, env.windowOk = true → env.gladOk = true →
      (mainRun env).1.countP isStbiImageFree = 1 ∧
      Event.stbiImageFree env.decoded.isNone ∈ (mainRun env).1) := by
  refine ⟨fun d => ⟨countP_stbiFree_textureSetup d, stbiFree_mem_textureSetup d⟩,
    stbiFree_mem_textureSetup none, fun env hw hg => ?_⟩
  rw [mainRun_ok env hw hg]
  have hloop : (renderLoop env.frames false).1.countP isStbiImageFree = 0 :=
    countP_renderLoop_zero _ _ _ (by decide)
  rcases hr : (renderLoop env.frames false).2 with _ | b
  · rw [finishRun_none _ _ hr]
    constructor
    · rw [List.countP_append, countP_stbiFree_setupTrace, hloop]
    · exact List.mem_append.mpr (Or.inl (stbiFree_mem_setupTrace env.decoded))
  · rw [finishRun_some _ _ b hr]
    constructor
    · rw [List.countP_append, List.countP_append, countP_stbiFree_setupTrace, hloop]
      decide
    · exact List.mem_append.mpr
        (Or.inl (List.mem_append.mpr (Or.inl (stbiFree_mem_setupTrace env.decoded))))

/-- C5: The 6-element index buffer [0,1,3, 1,2,3], applied to the 4 quad
vertices, describes exactly two triangles whose union is the full quad
[-0.5, 0.5] × [-0.5, 0.5] with no gap, whose interiors do not overlap, and
which share exactly the diagonal segment between vertices 1 and 3; every
index is in range [0, 3]. -/
theorem index_buffer_triangulates_quad :
    indices = [0, 1, 3, 1, 2, 3] ∧
    (∀ i ∈ indices, i ≤ 3) ∧
    (∀ p : ℚ × ℚ, inQuad p ↔
      (inTriangle (triVertex 0 0) (triVertex 0 1) (triVertex 0 2) p ∨
       inTriangle (triVertex 1 0) (triVertex 1 1) (triVertex 1 2) p)) ∧
    (∀ p : ℚ × ℚ,
      ¬(inTriangleInterior (triVertex 0 0) (triVertex 0 1) (triVertex 0 2) p ∧
        inTriangleInterior (triVertex 1 0) (triVertex 1 1) (triVertex 1 2) p)) ∧
    (∀ p : ℚ × ℚ,
      (inTriangle (triVertex 0 0) (triVertex 0 1) (triVertex 0 2) p ∧
       inTriangle (triVertex 1 0) (triVertex 1 1) (triVertex 1 2) p) ↔
      onSegment (vpos 1) (vpos 3) p) := by
  have t00 : triVertex 0 0 = vpos 0 := rfl
  have t01 : triVertex 0 1 = vpos 1 := rfl
  have t02 : triVertex 0 2 = vpos 3 := rfl
  have t10 : triVertex 1 0 = vpos 1 := rfl
  have t11 : triVertex 1 1 = vpos 2 := rfl
  have t12 : triVertex 1 2 = vpos 3 := rfl
  refine ⟨rfl, by decide, ?_, ?_, ?_⟩
  · intro p
    rw [t00, t01, t02, t10, t11, t12, tri1_mem_iff, tri2_mem_iff]
    unfold inQuad
    constructor
    · rintro ⟨h1, h2, h3, h4⟩
      rcases le_or_lt 0 (p.1 + p.2) with h | h
      · exact Or.inl ⟨h, h2, h4⟩
      · exact Or.inr ⟨le_of_lt h, h1, h3⟩
    · rintro (⟨h1, h2, h3⟩ | ⟨h1, h2, h3⟩)
      · exact ⟨by linarith, h2, by linarith, h3⟩
      · exact ⟨h2, by linarith, h3, by linarith⟩
  · intro p
    rw [t00, t01, t02, t10, t11, t12, tri1_interior_iff, tri2_interior_iff]
    rintro ⟨⟨h1, h2, h3⟩, ⟨h4, h5, h6⟩⟩
    linarith
  · intro p
    rw [t00, t01, t02, t10, t11, t12, tri1_mem_iff, tri2_mem_iff, seg13_iff]
    constructor
    · rintro ⟨⟨h1, h2, h3⟩, ⟨h4, h5, h6⟩⟩
      exact ⟨le_antisymm h4 h1, h5, h2⟩
    · rintro ⟨h1, h2, h3⟩
      exact ⟨⟨by linarith, h3, by linarith⟩, ⟨by linarith, h2, by linarith⟩⟩

/-- C1: The program's exit status is exactly one of 0 (normal exit: the frame
loop was terminated by the exit flag, which requires window creation and
function-pointer resolution to have succeeded) and -1 (window creation failed,
or function-pointer resolution failed); in each of the two failure cases the
whole run is the explicit failure trace — a diagnostic is printed, the process
terminates immediately, and no later setup step or frame-loop event occurs in
the trace. -/
theorem exit_status_and_fatal_paths : ∀ env : Env,
    ((mainRun env).2 = some 0 ∨ (mainRun env).2 = some (-1) ∨
      (mainRun env).2 = none) ∧
    ((mainRun env).2 = some 0 ↔
      env.windowOk = true ∧ env.gladOk = true ∧
        flagObserved env.frames false = true) ∧
    (env.windowOk = false → mainRun env = (windowFailTrace, some (-1))) ∧
    (env.windowOk = true → env.gladOk = false →
      mainRun env = (gladFailTrace, some (-1))) ∧
    Event.printErr "Failed to create GLFW window" ∈ windowFailTrace ∧
    Event.printErr "Failed to initialize GLAD" ∈ gladFailTrace ∧
    windowFailTrace.countP isPostWindowEvent = 0 ∧
    gladFailTrace.countP isPostGladEvent = 0 := by
  intro env
  refine ⟨?_, ?_, ?_, ?_, by decide, by decide, by decide, by decide⟩
  · rcases hw : env.windowOk with _ | _
    · rw [mainRun_windowFail env hw]
      exact Or.inr (Or.inl rfl)
    · rcases hg : env.gladOk with _ | _
      · rw [mainRun_gladFail env hw hg]
        exact Or.inr (Or.inl rfl)
      · rw [mainRun_ok env hw hg]
        rcases hr : (renderLoop env.frames false).2 with _ | b
        · rw [finishRun_none _ _ hr]
          exact Or.inr (Or.inr rfl)
        · rw [finishRun_some _ _ b hr]
          exact Or.inl rfl
  · rcases hw : env.windowOk with _ | _
    · rw [mainRun_windowFail env hw]
      refine iff_of_false (by decide) ?_
      rintro ⟨h1, _, _⟩
      exact absurd h1 (by decide)
    · rcases hg : env.gladOk with _ | _
      · rw [mainRun_gladFail env hw hg]
        refine iff_of_false (by decide) ?_
        rintro ⟨_, h2, _⟩
        exact absurd h2 (by decide)
      · rw [mainRun_ok env hw hg]
        rcases hr : (renderLoop env.frames false).2 with _ | b
        · rw [finishRun_none _ _ hr]
          refine iff_of_false (by simp) ?_
          rintro ⟨_, _, h3⟩
          rw [← renderLoop_isSome, hr] at h3
          exact absurd h3 (by decide)
        · rw [finishRun_some _ _ b hr]
          have hf : flagObserved env.frames false = true := by
            rw [← renderLoop_isSome, hr]
            rfl
          exact iff_of_true rfl ⟨rfl, rfl, hf⟩
  · intro hw
    exact mainRun_windowFail env hw
  · intro hw hg
    exact mainRun_gladFail env hw hg

/-- C8: On every path the trace contains no texture deletion — the GPU texture
object's lifetime equals the process lifetime — while on normal exit (status 0)
the run ends with the teardown block in which the vertex array, the vertex
buffer and the element buffer are each deleted exactly once. -/
theorem geometry_deleted_texture_never_deleted : ∀ env : Env,
    Event.deleteTextures ∉ (mainRun env).1 ∧
    ((mainRun env).2 = some 0 →
      (mainRun env).1 =
        setupTrace env.decoded ++ (renderLoop env.frames false).1 ++
          shutdownEvents ∧
      (mainRun env).1.count Event.deleteVertexArrays = 1 ∧
      (mainRun env).1.count (Event.deleteBuffer .vbo) = 1 ∧
      (mainRun env).1.count (Event.deleteBuffer .ebo) = 1) := by
  intro env
  have hloop : ∀ e : Event, e ∉ frameEvents → e ∉ (renderLoop env.frames false).1 :=
    fun e he h => he (mem_frameEvents_of_mem_renderLoop _ _ _ h)
  rcases hw : env.windowOk with _ | _
  · rw [mainRun_windowFail env hw]
    exact ⟨by decide, fun h => absurd h (by decide)⟩
  · rcases hg : env.gladOk with _ | _
    · rw [mainRun_gladFail env hw hg]
      exact ⟨by decide, fun h => absurd h (by decide)⟩
    · rw [mainRun_ok env hw hg]
      rcases hr : (renderLoop env.frames false).2 with _ | b
      · rw [finishRun_none _ _ hr]
        refine ⟨?_, fun h => absurd h (by simp)⟩
        intro h
        rcases List.mem_append.mp h with h1 | h2
        · exact deleteTextures_not_mem_setupTrace env.decoded h1
        · exact hloop _ (by decide) h2
      · rw [finishRun_some _ _ b hr]
        constructor
        · intro h
          rcases List.mem_append.mp h with h12 | h3
          · rcases List.mem_append.mp h12 with h1 | h2
            · exact deleteTextures_not_mem_setupTrace env.decoded h1
            · exact hloop _ (by decide) h2
          · exact (by decide : Event.deleteTextures ∉ shutdownEvents) h3
        · intro _
          refine ⟨rfl, ?_, ?_, ?_⟩
          · rw [List.count_append, List.count_append,
              List.count_eq_zero.mpr (deleteVertexArrays_not_mem_setupTrace env.decoded),
              List.count_eq_zero.mpr (hloop _ (by decide))]
            decide
          · rw [List.count_append, List.count_append,
              List.count_eq_zero.mpr (deleteBuffer_not_mem_setupTrace env.decoded .vbo),
              List.count_eq_zero.mpr (hloop _ (by decide))]
            decide
          · rw [List.count_append, List.count_append,
              List.count_eq_zero.mpr (deleteBuffer_not_mem_setupTrace env.decoded .ebo),
              List.count_eq_zero.mpr (hloop _ (by decide))]
            decide

/-- C10: The two fatal failure paths clean up asymmetrically: on
window-creation failure the program calls `glfwTerminate` (it is the last
event of the trace) before returning -1, but on function-pointer-resolution
failure it returns -1 without calling `glfwTerminate` at all. -/
theorem fatal_paths_terminate_asymmetrically : ∀ env : Env,
    (env.windowOk = false →
      mainRun env = (windowFailTrace, some (-1)) ∧
      Event.glfwTerminate ∈ windowFailTrace ∧
      windowFailTrace.getLast? = some Event.glfwTerminate) ∧
    (env.windowOk = true → env.gladOk = false →
      mainRun env = (gladFailTrace, some (-1)) ∧
      Event.glfwTerminate ∉ gladFailTrace) := by
  intro env
  constructor
  · intro hw
    exact ⟨mainRun_windowFail env hw, by decide, by decide⟩
  · intro hw hg
    exact ⟨mainRun_gladFail env hw hg, by decide⟩

end Textures
